import Mathlib

/-!
Verification of the dancing-figures contribution-graph tool (`dancing.py`).

The pattern mapper, commit driver, push escalation and CLI dispatch are
shallowly embedded below: pure Python functions become Lean functions,
calls to the external git client become boolean/string oracles recorded in
explicit event traces, and `random.randint(a, b)` becomes a function of an
oracle value reduced into the interval `[a, b]`.
-/

/-- A figure is a list of rows; each row is the list of intensity digits of
the corresponding Python string (e.g. "0030300" becomes [0,0,3,0,3,0,0]). -/
abbrev Figure := List (List ℕ)

/-- The `DANCING_FIGURES` constant: three 7-row figures whose rows are
7-digit strings, transcribed digit by digit. -/
def DANCING_FIGURES : List Figure :=
  [ [ [0,0,3,0,3,0,0],
      [0,3,0,3,0,3,0],
      [0,0,0,3,0,0,0],
      [0,0,0,3,0,0,0],
      [0,0,0,3,0,0,0],
      [0,0,3,0,0,0,0],
      [0,3,0,0,0,0,0] ],
    [ [0,0,0,3,0,0,0],
      [0,0,3,3,3,0,0],
      [0,0,0,3,0,0,0],
      [0,3,0,3,0,3,0],
      [0,0,0,3,0,0,0],
      [0,0,3,0,3,0,0],
      [0,3,0,0,0,3,0] ],
    [ [0,0,0,3,0,0,0],
      [0,0,3,0,3,0,0],
      [0,0,0,3,0,0,0],
      [0,0,3,0,3,0,0],
      [0,0,0,3,0,0,0],
      [0,3,0,0,0,3,0],
      [0,0,3,0,3,0,0] ] ]

/-- The `SPACE_BETWEEN` constant (space between figures, in weeks). -/
def SPACE_BETWEEN : ℕ := 1

/-- The `PATTERN_WIDTH` formula of the source:
`sum([len(figure[0]) for figure in DANCING_FIGURES]) +
 SPACE_BETWEEN * 7 * (len(DANCING_FIGURES) - 1)`,
parametrised by the figure list and the gap so that other configurations
can be instantiated. `len(figure[0])` is the length of the first row. -/
def PATTERN_WIDTH_of (figs : List Figure) (sb : ℕ) : ℕ :=
  (figs.map (fun f => (f.headD []).length)).sum + sb * 7 * (figs.length - 1)

/-- The `PATTERN_WIDTH` constant of the source. -/
def PATTERN_WIDTH : ℕ := PATTERN_WIDTH_of DANCING_FIGURES SPACE_BETWEEN

/-- The `figure_width = len(figure[0]) * 7` computation inside
`get_pattern_for_date` (width of one figure in days, as the walk uses it). -/
def figure_day_width (f : Figure) : ℕ := (f.headD []).length * 7

/-- The figure walk of `get_pattern_for_date`: iterate over the figures with
the running `current_pos`; if the position falls inside the current figure,
look up the digit at `day_in_figure // 7` / `day_in_figure % 7` (out-of-range
lookups give 0); otherwise skip the figure and, between figures, the gap of
`SPACE_BETWEEN * 7` days (a position inside a gap gives 0); after the last
figure the default 0 is returned. -/
def walkFigures (sb : ℕ) (pos : ℕ) : List Figure → ℕ → ℕ
  | [], _ => 0
  | f :: rest, currentPos =>
    if pos < currentPos + figure_day_width f then
      let dayInFigure := pos - currentPos
      let weekIdx := dayInFigure / 7
      let dayIdx := dayInFigure % 7
      (((f.get? weekIdx).bind fun row => row.get? dayIdx)).getD 0
    else
      match rest with
      | [] => 0
      | _ :: _ =>
        if pos < currentPos + figure_day_width f + sb * 7 then 0
        else walkFigures sb pos rest (currentPos + figure_day_width f + sb * 7)

/-- `get_pattern_for_date`, parametrised by the figure list and gap: the date
is its signed day count since 1970-01-01; `position_in_pattern` is that count
modulo `PATTERN_WIDTH` (Python `%` on a positive modulus, i.e. `Int.emod`),
then the figure walk yields the intensity. -/
def get_pattern_for_date_of (figs : List Figure) (sb : ℕ) (daysSinceEpoch : ℤ) : ℕ :=
  walkFigures sb ((daysSinceEpoch.emod (PATTERN_WIDTH_of figs sb : ℤ)).toNat) figs 0

/-- `get_pattern_for_date` with the source's configured constants. -/
def get_pattern_for_date (daysSinceEpoch : ℤ) : ℕ :=
  get_pattern_for_date_of DANCING_FIGURES SPACE_BETWEEN daysSinceEpoch

/-- Total layout width actually walked by `get_pattern_for_date`: each figure
contributes `len(figure[0]) * 7` days plus one `SPACE_BETWEEN * 7`-day gap
between each pair of adjacent figures. -/
def walked_layout_width (figs : List Figure) (sb : ℕ) : ℕ :=
  (figs.map figure_day_width).sum + sb * 7 * (figs.length - 1)

/-- Modelled from the spec: the date-to-intensity lookup with the modulus the
spec describes — the total layout width (sum of bitmap day-widths plus gaps) —
so that offsets can reach the second bitmap, the third bitmap and the gaps. -/
def pattern_spec_layout (daysSinceEpoch : ℤ) : ℕ :=
  walkFigures SPACE_BETWEEN
    ((daysSinceEpoch.emod (walked_layout_width DANCING_FIGURES SPACE_BETWEEN : ℤ)).toNat)
    DANCING_FIGURES 0

/-- The simpler function: offset is the day count modulo 35 and the digit is
read from the first figure at row `offset / 7`, column `offset % 7`
(out-of-range lookups give 0). -/
def first_figure_pattern (daysSinceEpoch : ℤ) : ℕ :=
  let off := (daysSinceEpoch.emod 35).toNat
  (((DANCING_FIGURES.headD []).get? (off / 7)).bind fun row => row.get? (off % 7)).getD 0

/-- Decimal string of a natural number, as Python `str`/f-string formatting
produces it: the base-10 digits, most significant first, as characters. -/
def pyStr (n : ℕ) : String :=
  if n = 0 then "0" else String.mk (((Nat.digits 10 n).reverse).map Nat.digitChar)

/-- Decode a digit string back to the natural number it denotes. -/
def decodeDigits (l : List Char) : ℕ :=
  Nat.ofDigits 10 ((l.map (fun c => c.toNat - 48)).reverse)

/-- Python's `pat in hay` on strings at the character-list level: does `pat`
occur at the head of `hay`? -/
def leadsWith : List Char → List Char → Bool
  | [], _ => true
  | _ :: _, [] => false
  | a :: as, b :: bs => a == b && leadsWith as bs

/-- Python's `pat in hay` on strings at the character-list level: does `pat`
occur contiguously anywhere in `hay`? -/
def containsSub (pat : List Char) : List Char → Bool
  | [] => leadsWith pat []
  | c :: t => leadsWith pat (c :: t) || containsSub pat t

/-- Python's `pat in hay` substring test on strings. -/
def strIn (pat hay : String) : Bool := containsSub pat.data hay.data

/-- The `MAX_FILES` constant. -/
def MAX_FILES : ℕ := 10

/-- The `COMMIT_FILES` pool: `dancing_file_{i}.txt` for `i` in `range(MAX_FILES)`. -/
def COMMIT_FILES : List String :=
  (List.range MAX_FILES).map (fun i => "dancing_file_" ++ pyStr i ++ ".txt")

/-- The commit message of `create_commits_for_today`:
`f"Dancing stick figure - {today} - {i}"`. -/
def commitMsg (today : String) (i : ℕ) : String :=
  "Dancing stick figure - " ++ today ++ " - " ++ pyStr i

/-- The file content written by `create_commits_for_today`:
`f"Dancing stick figure commit - {today} - {timestamp} - {i}"`. -/
def marker (today timestamp : String) (i : ℕ) : String :=
  "Dancing stick figure commit - " ++ today ++ " - " ++ timestamp ++ " - " ++ pyStr i

/-- Outcomes of the external git calls made by `push_changes`: the result and
stderr of the first plain push, the result of `sync_repo()`, of the retried
plain push, and of the force-with-lease push. -/
structure PushOracle where
  plain1Ok : Bool
  plain1Err : String
  syncOk : Bool
  plain2Ok : Bool
  leaseOk : Bool

/-- Observable actions of `push_changes`, in order of execution. -/
inductive PushEvent where
  | plainPush (ok : Bool)
  | syncRepo (ok : Bool)
  | leasePush (ok : Bool)
deriving DecidableEq

/-- `push_changes`: try a plain push and return on success; if it failed and
the error contains "non-fast-forward", run `sync_repo()` and, when the sync
succeeded, retry the plain push and return that result; otherwise (generic
error, or failed sync) fall through to a force-with-lease push and return its
result. Returns the boolean result and the trace of git actions performed. -/
def push_changes (o : PushOracle) : Bool × List PushEvent :=
  if o.plain1Ok then (true, [.plainPush true])
  else if strIn "non-fast-forward" o.plain1Err then
    if o.syncOk then
      (o.plain2Ok, [.plainPush false, .syncRepo true, .plainPush o.plain2Ok])
    else
      (o.leaseOk, [.plainPush false, .syncRepo false, .leasePush o.leaseOk])
  else
    (o.leaseOk, [.plainPush false, .leasePush o.leaseOk])

/-- Outcomes of the per-index external git calls in the commit loop:
`git add`, `git commit`, and the `push_changes` call at index `i`. -/
structure StepOracle where
  addOk : ℕ → Bool
  commitOk : ℕ → Bool
  pushOk : ℕ → Bool

/-- One iteration of the commit loop: the file chosen (`i % MAX_FILES`), the
content written to it, the commit message, whether `git add` succeeded,
whether `git commit` was reached and succeeded (a failed add `continue`s past
it), and whether a push was attempted (every third index or the last one,
reached only when the commit succeeded). -/
structure CommitStep where
  index : ℕ
  file : ℕ
  content : String
  message : String
  added : Bool
  committed : Bool
  pushAttempted : Bool
deriving DecidableEq

/-- The body of the `for i in range(num_commits)` loop of
`create_commits_for_today` at index `i` of a batch of size `n`. -/
def stepFor (today timestamp : String) (o : StepOracle) (n i : ℕ) : CommitStep :=
  { index := i
    file := i % MAX_FILES
    content := marker today timestamp i
    message := commitMsg today i
    added := o.addOk i
    committed := o.addOk i && o.commitOk i
    pushAttempted := (o.addOk i && o.commitOk i) && (decide (i % 3 = 0) || decide (i = n - 1)) }

/-- `create_commits_for_today`: runs the loop body for every index in
`range(num_commits)`; a failed add or commit only skips the rest of that
iteration (`continue`), never the remaining indices. -/
def create_commits_for_today (today timestamp : String) (o : StepOracle) (n : ℕ) :
    List CommitStep :=
  (List.range n).map (stepFor today timestamp o n)

/-- Python `random.randint(a, b)` (inclusive bounds), with the drawn value
modelled by the oracle `r` reduced into the interval: every value of `[a, b]`
is reachable and no other value is. -/
def randint (a b r : ℕ) : ℕ := a + r % (b + 1 - a)

/-- The intensity-to-commit-count dispatch shared by `daily_update` and
`initial_setup`: intensity 1 draws from `[1, 2]`, intensity 2 from `[3, 5]`,
and the remaining (positive) intensities from `[6, 8]`. -/
def num_commits_for_intensity (intensity r : ℕ) : ℕ :=
  if intensity = 1 then randint 1 2 r
  else if intensity = 2 then randint 3 5 r
  else randint 6 8 r

/-- `daily_update`: if `setup_repo()` failed, return failure with no commit
attempted; otherwise compute today's intensity and, when it is positive, run
`create_commits_for_today` on the drawn commit count; in either case return
success. Returns the boolean result and the list of commit-loop steps. -/
def daily_update (setupOk : Bool) (today : ℤ) (todayStr timestamp : String)
    (r : ℕ) (o : StepOracle) : Bool × List CommitStep :=
  if setupOk = false then (false, [])
  else
    let intensity := get_pattern_for_date today
    if 0 < intensity then
      (true, create_commits_for_today todayStr timestamp o (num_commits_for_intensity intensity r))
    else
      (true, [])

/-- The parsed command-line arguments of the tool. -/
structure Args where
  setup : Option String
  daily : Bool
  test_ssh : Bool
  cleanup : Bool
  reset : Bool
  force : Bool
  debug : Bool

/-- The operation a run performs. -/
inductive Operation where
  | testSshOp
  | resetOp
  | setupOp (startDate : String) (force : Bool)
  | dailyOp
  | cleanupOp
  | usageOp
deriving DecidableEq

/-- Python truthiness of an optional string argument: present and non-empty. -/
def truthyStr : Option String → Bool
  | none => false
  | some s => !s.isEmpty

/-- The `if args.test_ssh: ... elif args.reset: ... elif args.setup: ...
elif args.daily: ... elif args.cleanup: ... else: parser.print_help()`
dispatch of the `__main__` block. -/
def selectOperation (a : Args) : Operation :=
  if a.test_ssh then .testSshOp
  else if a.reset then .resetOp
  else if truthyStr a.setup then .setupOp (a.setup.getD "") a.force
  else if a.daily then .dailyOp
  else if a.cleanup then .cleanupOp
  else .usageOp

/-- Modelled from the spec: the dispatch in the documented order (`--setup`
before `--daily` before `--test-ssh` before `--cleanup` before `--reset`). -/
def selectOperationSpecOrder (a : Args) : Operation :=
  if truthyStr a.setup then .setupOp (a.setup.getD "") a.force
  else if a.daily then .dailyOp
  else if a.test_ssh then .testSshOp
  else if a.cleanup then .cleanupOp
  else if a.reset then .resetOp
  else .usageOp

lemma pattern_width_eval : PATTERN_WIDTH = 35 := by decide

lemma gp_walk (d : ℤ) :
    get_pattern_for_date d = walkFigures 1 ((d.emod 35).toNat) DANCING_FIGURES 0 := rfl

lemma emod35_lt (d : ℤ) : (d.emod 35).toNat < 35 := by
  have h1 : 0 ≤ d.emod 35 := Int.emod_nonneg d (by norm_num)
  have h2 : d.emod 35 < 35 := Int.emod_lt_of_pos d (by norm_num)
  omega

lemma walk_le_three : ∀ p, p < 35 → walkFigures 1 p DANCING_FIGURES 0 ≤ 3 := by decide

lemma walk_eq_first : ∀ p, p < 35 →
    walkFigures 1 p DANCING_FIGURES 0 =
      (((DANCING_FIGURES.headD []).get? (p / 7)).bind fun row => row.get? (p % 7)).getD 0 := by
  decide

lemma cast_pattern_width : (PATTERN_WIDTH : ℤ) = 35 := by
  rw [pattern_width_eval]; rfl

lemma map_id_on {α : Type} (g : α → α) :
    ∀ l : List α, (∀ a ∈ l, g a = a) → l.map g = l := by
  intro l
  induction l with
  | nil => intro _; rfl
  | cons a t ih =>
    intro h
    simp only [List.map_cons]
    rw [h a (by simp), ih (fun x hx => h x (by simp [hx]))]

lemma decode_pyStr (n : ℕ) : decodeDigits (pyStr n).data = n := by
  unfold pyStr decodeDigits
  by_cases hn : n = 0
  · subst hn; decide
  · simp only [if_neg hn]
    show Nat.ofDigits 10
        ((((Nat.digits 10 n).reverse.map Nat.digitChar).map (fun c => c.toNat - 48)).reverse) = n
    rw [List.map_map]
    rw [map_id_on _ _ ?hid]
    case hid =>
      intro a ha
      have halt : a < 10 := Nat.digits_lt_base (by norm_num) (List.mem_reverse.mp ha)
      show (Nat.digitChar a).toNat - 48 = a
      interval_cases a <;> rfl
    rw [List.reverse_reverse]
    exact Nat.ofDigits_digits 10 n

lemma pyStr_inj : Function.Injective pyStr := by
  intro m n h
  have := congrArg (fun s => decodeDigits (String.data s)) h
  simpa [decode_pyStr] using this

lemma append_left_cancel_str (p s t : String) (h : p ++ s = p ++ t) : s = t := by
  have hd : p.data ++ s.data = p.data ++ t.data := congrArg String.data h
  have h2 := List.append_cancel_left hd
  exact String.ext h2

lemma commitMsg_inj (today : String) : Function.Injective (commitMsg today) := by
  intro i j h
  exact pyStr_inj (append_left_cancel_str _ _ _ h)

lemma marker_inj (today ts : String) : Function.Injective (marker today ts) := by
  intro i j h
  exact pyStr_inj (append_left_cancel_str _ _ _ h)

/-- C1: the modulus of the date-to-intensity mapping (`PATTERN_WIDTH` = 35)
does not equal the layout width walked by the lookup (161 = 3 · 49 + 2 · 7):
every offset stays strictly inside the first figure's 49-day span, so no date
ever reaches the second figure, the third figure or a gap; at day 52
(1970-02-22) the code yields 3 while the spec's layout places the offset in
the first gap and yields 0. -/
theorem C1_pattern_width_mismatch :
    PATTERN_WIDTH = 35 ∧
    walked_layout_width DANCING_FIGURES SPACE_BETWEEN = 161 ∧
    PATTERN_WIDTH ≠ walked_layout_width DANCING_FIGURES SPACE_BETWEEN ∧
    (∀ d : ℤ, (d.emod (PATTERN_WIDTH : ℤ)).toNat < figure_day_width (DANCING_FIGURES.headD [])) ∧
    get_pattern_for_date 52 = 3 ∧ pattern_spec_layout 52 = 0 := by
  refine ⟨by decide, by decide, by decide, ?_, by decide, by decide⟩
  intro d
  rw [cast_pattern_width]
  have h1 : figure_day_width (DANCING_FIGURES.headD []) = 49 := by decide
  rw [h1]
  have := emod35_lt d
  omega

/-- C3: `get_pattern_for_date` is periodic with period `PATTERN_WIDTH`; with
the same figures and no gaps the pattern width is 21 and day 22 maps to the
same value as day 1. -/
theorem C3_pattern_periodicity :
    (∀ d : ℤ, get_pattern_for_date d = get_pattern_for_date (d + (PATTERN_WIDTH : ℤ))) ∧
    PATTERN_WIDTH_of DANCING_FIGURES 0 = 21 ∧
    get_pattern_for_date_of DANCING_FIGURES 0 22 = get_pattern_for_date_of DANCING_FIGURES 0 1 := by
  refine ⟨?_, by decide, by decide⟩
  intro d
  rw [cast_pattern_width, gp_walk, gp_walk]
  have h : (d + 35).emod 35 = d.emod 35 := by
    show (d + 35) % 35 = d % 35
    simp [Int.add_mul_emod_self_left]
  rw [h]

/-- C4: for every date the computed intensity lies in {0, 1, 2, 3}. -/
theorem C4_intensity_in_range :
    ∀ d : ℤ, get_pattern_for_date d ∈ ({0, 1, 2, 3} : Finset ℕ) := by
  intro d
  rw [gp_walk]
  have h := walk_le_three _ (emod35_lt d)
  simp only [Finset.mem_insert, Finset.mem_singleton]
  omega

/-- C9: `get_pattern_for_date` agrees with the simpler function that reads the
first figure at row `offset / 7`, column `offset % 7` of `offset = days mod
35`, for every date, and the row index read is always at most 4. -/
theorem C9_first_figure_refinement :
    ∀ d : ℤ, get_pattern_for_date d = first_figure_pattern d ∧
      (d.emod (PATTERN_WIDTH : ℤ)).toNat / 7 < 5 := by
  intro d
  constructor
  · rw [gp_walk]
    simpa [first_figure_pattern] using walk_eq_first _ (emod35_lt d)
  · rw [cast_pattern_width]
    have := emod35_lt d
    omega

/-- C2: the claim fails — the force-with-lease push can be attempted without
any preceding sync-and-retry: when the first plain push fails with an error
that does not contain "non-fast-forward", `push_changes` goes straight to the
force-with-lease push and never calls `sync_repo`. -/
theorem C2_lease_without_sync_counterexample :
    PushEvent.leasePush false ∈
      (push_changes ⟨false, "remote: permission denied", true, true, false⟩).2 ∧
    PushEvent.syncRepo true ∉
      (push_changes ⟨false, "remote: permission denied", true, true, false⟩).2 ∧
    PushEvent.syncRepo false ∉
      (push_changes ⟨false, "remote: permission denied", true, true, false⟩).2 := by
  decide

/-- C2 (amended): the plain push always comes first; `sync_repo` runs exactly
when the plain push failed with a non-fast-forward error; the force-with-lease
push runs exactly when the plain push failed and either the error was not
non-fast-forward or the sync failed; and after a successful sync the retried
plain push's result is returned with no lease push, even when that retry
fails. -/
theorem C2_push_escalation_amended :
    ∀ o : PushOracle,
      (push_changes o).2.head? = some (PushEvent.plainPush o.plain1Ok) ∧
      (∀ b, PushEvent.syncRepo b ∈ (push_changes o).2 →
        o.plain1Ok = false ∧ strIn "non-fast-forward" o.plain1Err = true ∧ b = o.syncOk) ∧
      (∀ b, PushEvent.leasePush b ∈ (push_changes o).2 →
        o.plain1Ok = false ∧
          (strIn "non-fast-forward" o.plain1Err = false ∨ o.syncOk = false) ∧ b = o.leaseOk) ∧
      (o.plain1Ok = false → strIn "non-fast-forward" o.plain1Err = true → o.syncOk = true →
        (push_changes o).1 = o.plain2Ok ∧
        (push_changes o).2 =
          [PushEvent.plainPush false, PushEvent.syncRepo true, PushEvent.plainPush o.plain2Ok] ∧
        ∀ b, PushEvent.leasePush b ∉ (push_changes o).2) ∧
      (o.plain1Ok = false → strIn "non-fast-forward" o.plain1Err = false →
        (push_changes o).1 = o.leaseOk ∧
        (push_changes o).2 = [PushEvent.plainPush false, PushEvent.leasePush o.leaseOk]) ∧
      (o.plain1Ok = false → strIn "non-fast-forward" o.plain1Err = true → o.syncOk = false →
        (push_changes o).1 = o.leaseOk ∧
        (push_changes o).2 =
          [PushEvent.plainPush false, PushEvent.syncRepo false, PushEvent.leasePush o.leaseOk]) := by
  intro o
  obtain ⟨p1, err, sy, p2, le⟩ := o
  cases p1 <;> cases hs : strIn "non-fast-forward" err <;> cases sy <;>
    simp [push_changes, hs]

/-- C2 (amended) at concrete inputs: a non-fast-forward failure with a
successful sync yields exactly one sync and one retried plain push, whose
(failing) result is returned; a non-fast-forward failure with a failed sync
does attempt the force-with-lease push and returns its result. -/
theorem C2_push_escalation_amended_witness :
    ((push_changes ⟨false, "rejected: non-fast-forward", true, false, true⟩).1 = false ∧
      (push_changes ⟨false, "rejected: non-fast-forward", true, false, true⟩).2 =
        [PushEvent.plainPush false, PushEvent.syncRepo true, PushEvent.plainPush false]) ∧
    ((push_changes ⟨false, "rejected: non-fast-forward", false, true, true⟩).1 = true ∧
      (push_changes ⟨false, "rejected: non-fast-forward", false, true, true⟩).2 =
        [PushEvent.plainPush false, PushEvent.syncRepo false, PushEvent.leasePush true]) := by
  have h := C2_push_escalation_amended ⟨false, "rejected: non-fast-forward", true, false, true⟩
  have h4 := h.2.2.2.1 rfl (by decide) rfl
  have g := C2_push_escalation_amended ⟨false, "rejected: non-fast-forward", false, true, true⟩
  have g6 := g.2.2.2.2.2 rfl (by decide) rfl
  exact ⟨⟨h4.1, h4.2.1⟩, g6⟩

/-- C5: the commit count drawn for intensity 1 lies in [1,2], for intensity 2
in [3,5], for intensity 3 in [6,8]; and a daily run on a date of intensity 0
attempts no commit and still returns success. -/
theorem C5_intensity_commit_counts :
    (∀ r, 1 ≤ num_commits_for_intensity 1 r ∧ num_commits_for_intensity 1 r ≤ 2) ∧
    (∀ r, 3 ≤ num_commits_for_intensity 2 r ∧ num_commits_for_intensity 2 r ≤ 5) ∧
    (∀ r, 6 ≤ num_commits_for_intensity 3 r ∧ num_commits_for_intensity 3 r ≤ 8) ∧
    (∀ (today : ℤ) (tStr ts : String) (r : ℕ) (o : StepOracle),
      get_pattern_for_date today = 0 →
        daily_update true today tStr ts r o = (true, [])) := by
  refine ⟨?_, ?_, ?_, ?_⟩
  · intro r
    show 1 ≤ 1 + r % 2 ∧ 1 + r % 2 ≤ 2
    omega
  · intro r
    show 3 ≤ 3 + r % 3 ∧ 3 + r % 3 ≤ 5
    omega
  · intro r
    show 6 ≤ 6 + r % 3 ∧ 6 + r % 3 ≤ 8
    omega
  · intro today tStr ts r o h
    simp [daily_update, h]

/-- C5 at a concrete input: intensity 1 with oracle 7 draws a count in [1,2],
and the daily run on day 0 (intensity 0) performs no commit and succeeds. -/
theorem C5_intensity_commit_counts_witness :
    (1 ≤ num_commits_for_intensity 1 7 ∧ num_commits_for_intensity 1 7 ≤ 2) ∧
    daily_update true 0 "1970-01-01" "19700101000000" 7
      ⟨fun _ => true, fun _ => true, fun _ => true⟩ = (true, []) := by
  have h := C5_intensity_commit_counts
  exact ⟨h.1 7, h.2.2.2 0 "1970-01-01" "19700101000000" 7 _ (by decide)⟩

/-- C6: when every add and commit step succeeds, a requested batch of `n`
commits yields exactly `n` committed steps whose commit messages are pairwise
distinct and whose file-content markers are pairwise distinct (each embeds the
batch index). -/
theorem C6_batch_distinct_commits :
    ∀ (today ts : String) (o : StepOracle) (n : ℕ),
      (∀ i, o.addOk i = true) → (∀ i, o.commitOk i = true) →
      (create_commits_for_today today ts o n).length = n ∧
      (∀ s ∈ create_commits_for_today today ts o n, s.committed = true) ∧
      ((create_commits_for_today today ts o n).map CommitStep.message).Nodup ∧
      ((create_commits_for_today today ts o n).map CommitStep.content).Nodup := by
  intro today ts o n ha hc
  refine ⟨by simp [create_commits_for_today], ?_, ?_, ?_⟩
  · intro s hs
    simp only [create_commits_for_today, List.mem_map, List.mem_range] at hs
    obtain ⟨i, _, rfl⟩ := hs
    simp [stepFor, ha i, hc i]
  · rw [create_commits_for_today, List.map_map]
    exact (List.nodup_range n).map (commitMsg_inj today)
  · rw [create_commits_for_today, List.map_map]
    exact (List.nodup_range n).map (marker_inj today ts)

/-- C6 at a concrete input: an all-success batch of 3 commits has 3 pairwise
distinct messages and markers. -/
theorem C6_batch_distinct_commits_witness :
    (create_commits_for_today "2024-01-01" "20240101120000"
        ⟨fun _ => true, fun _ => true, fun _ => true⟩ 3).length = 3 ∧
    ((create_commits_for_today "2024-01-01" "20240101120000"
        ⟨fun _ => true, fun _ => true, fun _ => true⟩ 3).map CommitStep.message).Nodup := by
  have h := C6_batch_distinct_commits "2024-01-01" "20240101120000"
    ⟨fun _ => true, fun _ => true, fun _ => true⟩ 3 (fun _ => rfl) (fun _ => rfl)
  exact ⟨h.1, h.2.2.1⟩

/-- C7: the commit loop visits every index of the batch no matter which add,
commit or push steps fail (a step failure only skips the rest of its own
iteration), and the whole run returns failure exactly when repository setup
failed. -/
theorem C7_no_abort_on_step_failure :
    (∀ (today ts : String) (o : StepOracle) (n : ℕ),
      (create_commits_for_today today ts o n).length = n ∧
      ∀ i, i < n → (create_commits_for_today today ts o n).get? i =
        some (stepFor today ts o n i)) ∧
    (∀ (setupOk : Bool) (today : ℤ) (tStr ts : String) (r : ℕ) (o : StepOracle),
      ((daily_update setupOk today tStr ts r o).1 = false ↔ setupOk = false)) := by
  constructor
  · intro today ts o n
    refine ⟨by simp [create_commits_for_today], ?_⟩
    intro i hi
    rw [create_commits_for_today, List.get?_eq_getElem?]
    simp [List.getElem?_map, List.getElem?_range, hi]
  · intro setupOk today tStr ts r o
    cases setupOk
    · simp [daily_update]
    · unfold daily_update
      by_cases h : 0 < get_pattern_for_date today <;> simp [h]

/-- C7 at a concrete input: with every step failing, index 1 of a 2-commit
batch is still processed (its file is modified and its add attempted). -/
theorem C7_no_abort_on_step_failure_witness :
    (create_commits_for_today "2024-01-01" "20240101120000"
        ⟨fun _ => false, fun _ => false, fun _ => false⟩ 2).get? 1 =
      some (stepFor "2024-01-01" "20240101120000"
        ⟨fun _ => false, fun _ => false, fun _ => false⟩ 2 1) := by
  exact (C7_no_abort_on_step_failure.1 "2024-01-01" "20240101120000"
    ⟨fun _ => false, fun _ => false, fun _ => false⟩ 2).2 1 (by norm_num)

/-- C10: `daily_update` returns failure exactly when `setup_repo` fails: its
boolean result equals the setup result whatever the date, the drawn count and
the outcomes of the individual add, commit and push steps. -/
theorem C10_daily_update_result_eq_setup :
    ∀ (setupOk : Bool) (today : ℤ) (tStr ts : String) (r : ℕ) (o : StepOracle),
      (daily_update setupOk today tStr ts r o).1 = setupOk := by
  intro setupOk today tStr ts r o
  cases setupOk
  · simp [daily_update]
  · unfold daily_update
    by_cases h : 0 < get_pattern_for_date today <;> simp [h]

/-- C8: the claim's precedence order fails on the code — when both `--setup`
and `--test-ssh` are given, the dispatch runs the SSH test, not the setup,
because the code checks `--test-ssh` first while the claim puts `--setup`
first. -/
theorem C8_cli_order_counterexample :
    selectOperation ⟨some "2020-01-01", false, true, false, false, false, false⟩ =
      Operation.testSshOp ∧
    selectOperationSpecOrder ⟨some "2020-01-01", false, true, false, false, false, false⟩ =
      Operation.setupOp "2020-01-01" false ∧
    selectOperation ⟨some "2020-01-01", false, true, false, false, false, false⟩ ≠
      selectOperationSpecOrder ⟨some "2020-01-01", false, true, false, false, false, false⟩ := by
  decide

/-- C8 (amended): the CLI operations are mutually exclusive with the first
matching flag winning in the order `--test-ssh`, `--reset`, `--setup`,
`--daily`, `--cleanup` (an empty-string `--setup` value counts as absent),
and with no operation flag the tool prints usage and performs no operation. -/
theorem C8_cli_order_amended :
    ∀ a : Args,
      (a.test_ssh = true → selectOperation a = Operation.testSshOp) ∧
      (a.test_ssh = false → a.reset = true → selectOperation a = Operation.resetOp) ∧
      (a.test_ssh = false → a.reset = false → truthyStr a.setup = true →
        selectOperation a = Operation.setupOp (a.setup.getD "") a.force) ∧
      (a.test_ssh = false → a.reset = false → truthyStr a.setup = false → a.daily = true →
        selectOperation a = Operation.dailyOp) ∧
      (a.test_ssh = false → a.reset = false → truthyStr a.setup = false → a.daily = false →
        a.cleanup = true → selectOperation a = Operation.cleanupOp) ∧
      (a.test_ssh = false → a.reset = false → truthyStr a.setup = false → a.daily = false →
        a.cleanup = false → selectOperation a = Operation.usageOp) := by
  intro a
  refine ⟨fun h1 => by simp [selectOperation, h1],
          fun h1 h2 => by simp [selectOperation, h1, h2],
          fun h1 h2 h3 => by simp [selectOperation, h1, h2, h3],
          fun h1 h2 h3 h4 => by simp [selectOperation, h1, h2, h3, h4],
          fun h1 h2 h3 h4 h5 => by simp [selectOperation, h1, h2, h3, h4, h5],
          fun h1 h2 h3 h4 h5 => by simp [selectOperation, h1, h2, h3, h4, h5]⟩

/-- C8 (amended) at a concrete input: with no operation flag set the dispatch
selects the usage operation. -/
theorem C8_cli_order_amended_witness :
    selectOperation ⟨none, false, false, false, false, false, false⟩ = Operation.usageOp := by
  exact (C8_cli_order_amended ⟨none, false, false, false, false, false, false⟩).2.2.2.2.2
    rfl rfl rfl rfl rfl
